import Mathlib

/-!
Verification of the redux-websocket sources: a shallow embedding of the
action-creator modules (src/unnamed/part_000 and src/unnamed/part_002) and of
the connection manager (src/src/ReduxWebSocket.ts), together with theorems
settling the specification claims.
-/

/-- A JavaScript runtime value, as far as the action creators observe one:
undefined, null, booleans, numbers, strings, Error instances, arrays and plain
objects (a list of key and value pairs in insertion order). -/
inductive JSValue where
  | undefv : JSValue
  | nullv : JSValue
  | boolv (b : Bool) : JSValue
  | numv (n : Int) : JSValue
  | strv (s : String) : JSValue
  | errv (name msg : String) : JSValue
  | arrv (elems : List JSValue) : JSValue
  | objv (fields : List (String × JSValue)) : JSValue

/-- JavaScript truthiness of a value, as used by `payload ? ... : ...` in
buildAction: undefined, null, false, 0 and the empty string are falsy; Error
instances, arrays and objects are always truthy. -/
def JSValue.truthy : JSValue → Bool
  | .undefv => false
  | .nullv => false
  | .boolv b => b
  | .numv n => n != 0
  | .strv s => s != ""
  | .errv _ _ => true
  | .arrv _ => true
  | .objv _ => true

/-- The `payload instanceof Error` test of buildAction. -/
def JSValue.isError : JSValue → Bool
  | .errv _ _ => true
  | _ => false

/-- JavaScript property access `v.k` on a value: field lookup on objects,
undefined everywhere else. -/
def JSValue.getProp : JSValue → String → JSValue
  | .objv fs, k =>
    match fs.find? (fun f => f.1 == k) with
    | some f => f.2
    | none => .undefv
  | _, _ => .undefv

/-- The `meta.timestamp` value of a built action: either the structured Date
value (epoch milliseconds) or its string serialization. -/
inductive TimestampVal where
  | datev (ms : Nat) : TimestampVal
  | strv (s : String) : TimestampVal

/-- Modelled from the spec: `Date.prototype.toJSON`, the canonical string
serialization of the structured timestamp (section 6). An injective stand-in
on epoch milliseconds; both action modules call the identical builtin. -/
def dateToJSON (ms : Nat) : String := "date:" ++ toString ms

/-- The shape of every action the creators build: `type`, `meta.timestamp`
plus any extra meta fields, an optional `payload`, and the `error: true`
marker mixed in when the payload is an Error instance. -/
structure BuiltAction where
  type : String
  timestamp : TimestampVal
  metaExtra : List (String × JSValue)
  payload : Option JSValue
  error : Bool

/-- JavaScript `a || d` on a possibly-undefined string, as in the creators
`${prefix || DEFAULT_PREFIX}`: the empty string is falsy and falls back. -/
def jsOrStr (v : Option String) (d : String) : String :=
  match v with
  | some s => if s = "" then d else s
  | none => d

/-- JavaScript `a || d` on a possibly-undefined number, as in
`code || 1000`: zero is falsy and falls back. -/
def jsOrNat (v : Option Nat) (d : Nat) : Nat :=
  match v with
  | some c => if c = 0 then d else c
  | none => d

/-- JavaScript template interpolation of a possibly-undefined string, as in
the library-dispatched creators `${prefix}::...`: an undefined value prints
as the text undefined. -/
def tmplStr (v : Option String) : String :=
  match v with
  | some s => s
  | none => "undefined"

/-- Modelled from the spec: the fixed default event-name prefix constant
exported by the actionTypes module, which is not among the provided sources.
Section 6 only requires a fixed constant; any fixed string distinct from the
text undefined represents it. -/
def DEFAULT_PFX : String := "REDUX_WEBSOCKET"

/-- Modelled from the spec: the CONNECT event name from the actionTypes
module (section 6 lists the event names). -/
def WEBSOCKET_CONNECT : String := "CONNECT"

/-- Modelled from the spec: the DISCONNECT event name. -/
def WEBSOCKET_DISCONNECT : String := "DISCONNECT"

/-- Modelled from the spec: the SEND event name. -/
def WEBSOCKET_SEND : String := "SEND"

/-- Modelled from the spec: the BEGIN_RECONNECT event name. -/
def WEBSOCKET_BEGIN_RECONNECT : String := "BEGIN_RECONNECT"

/-- Modelled from the spec: the RECONNECT_ATTEMPT event name. -/
def WEBSOCKET_RECONNECT_ATTEMPT : String := "RECONNECT_ATTEMPT"

/-- Modelled from the spec: the RECONNECTED event name. -/
def WEBSOCKET_RECONNECTED : String := "RECONNECTED"

/-- Modelled from the spec: the OPEN event name. -/
def WEBSOCKET_OPEN : String := "OPEN"

/-- Modelled from the spec: the BROKEN event name. -/
def WEBSOCKET_BROKEN : String := "BROKEN"

/-- Modelled from the spec: the CLOSED event name. -/
def WEBSOCKET_CLOSED : String := "CLOSED"

/-- Modelled from the spec: the MESSAGE event name. -/
def WEBSOCKET_MESSAGE : String := "MESSAGE"

/-- Modelled from the spec: the ERROR event name. -/
def WEBSOCKET_ERROR : String := "ERROR"

/-- The rest arguments accepted by the `connect` creator:
`[] | [prefix] | [protocols] | [protocols, prefix]`. The creator separates the
one-argument cases with an `Array.isArray` test. -/
inductive ConnectRestArgs where
  | noArgs : ConnectRestArgs
  | withPfx (p : String) : ConnectRestArgs
  | withProtocols (ps : List String) : ConnectRestArgs
  | withProtocolsAndPfx (ps : List String) (p : String) : ConnectRestArgs

/-- The `protocols` entry of the connect payload: undefined when no protocol
list was given, a string array otherwise. -/
def protocolsToJS (ps : Option (List String)) : JSValue :=
  match ps with
  | none => .undefv
  | some l => .arrv (l.map .strv)

namespace ActionsV0

/-- Embeds `buildAction` from src/unnamed/part_000: builds the FSA action with
a timestamp taken at build time (threaded in as `now`, epoch ms), serialized
to a string when `string_timestamp` holds; mixes `error: true` in when the
payload is an Error instance and drops a falsy payload. -/
def buildAction (actionType : String) (string_timestamp : Bool) (payload : JSValue)
    (meta : List (String × JSValue)) (now : Nat) : BuiltAction :=
  { type := actionType
    timestamp := if string_timestamp then .strv (dateToJSON now) else .datev now
    metaExtra := meta
    error := payload.isError
    payload := if payload.truthy then some payload else none }

/-- Embeds the `connect` creator from src/unnamed/part_000. -/
def connect (url : String) (string_timestamp : Bool) (args : ConnectRestArgs)
    (now : Nat) : BuiltAction :=
  let protocols : Option (List String) :=
    match args with
    | .noArgs => none
    | .withPfx _ => none
    | .withProtocols ps => some ps
    | .withProtocolsAndPfx ps _ => some ps
  let pfx : Option String :=
    match args with
    | .noArgs => none
    | .withPfx p => some p
    | .withProtocols _ => none
    | .withProtocolsAndPfx _ p => some p
  buildAction (jsOrStr pfx DEFAULT_PFX ++ "::" ++ WEBSOCKET_CONNECT) string_timestamp
    (.objv [("url", .strv url), ("protocols", protocolsToJS protocols)]) [] now

/-- Embeds the `disconnect` creator from src/unnamed/part_000. -/
def disconnect (string_timestamp : Bool) (pfx : Option String) (now : Nat) : BuiltAction :=
  buildAction (jsOrStr pfx DEFAULT_PFX ++ "::" ++ WEBSOCKET_DISCONNECT)
    string_timestamp .undefv [] now

/-- Embeds the `send` creator from src/unnamed/part_000. -/
def send (msg : JSValue) (string_timestamp : Bool) (pfx : Option String)
    (now : Nat) : BuiltAction :=
  buildAction (jsOrStr pfx DEFAULT_PFX ++ "::" ++ WEBSOCKET_SEND)
    string_timestamp msg [] now

/-- Embeds the `beginReconnect` creator from src/unnamed/part_000. The prefix
is interpolated without a default. -/
def beginReconnect (string_timestamp : Bool) (pfx : Option String) (now : Nat) : BuiltAction :=
  buildAction (tmplStr pfx ++ "::" ++ WEBSOCKET_BEGIN_RECONNECT)
    string_timestamp .undefv [] now

/-- Embeds the `reconnectAttempt` creator from src/unnamed/part_000. -/
def reconnectAttempt (count : Int) (string_timestamp : Bool) (pfx : Option String)
    (now : Nat) : BuiltAction :=
  buildAction (tmplStr pfx ++ "::" ++ WEBSOCKET_RECONNECT_ATTEMPT)
    string_timestamp (.objv [("count", .numv count)]) [] now

/-- Embeds the `reconnected` creator from src/unnamed/part_000. -/
def reconnected (string_timestamp : Bool) (pfx : Option String) (now : Nat) : BuiltAction :=
  buildAction (tmplStr pfx ++ "::" ++ WEBSOCKET_RECONNECTED)
    string_timestamp .undefv [] now

/-- Embeds the `open` creator from src/unnamed/part_000 (named openAction here
because open is a reserved word in Lean). -/
def openAction (event : JSValue) (string_timestamp : Bool) (pfx : Option String)
    (now : Nat) : BuiltAction :=
  buildAction (tmplStr pfx ++ "::" ++ WEBSOCKET_OPEN) string_timestamp event [] now

/-- Embeds the `broken` creator from src/unnamed/part_000. -/
def broken (string_timestamp : Bool) (pfx : Option String) (now : Nat) : BuiltAction :=
  buildAction (tmplStr pfx ++ "::" ++ WEBSOCKET_BROKEN) string_timestamp .undefv [] now

/-- Embeds the `closed` creator from src/unnamed/part_000. -/
def closed (event : JSValue) (string_timestamp : Bool) (pfx : Option String)
    (now : Nat) : BuiltAction :=
  buildAction (tmplStr pfx ++ "::" ++ WEBSOCKET_CLOSED) string_timestamp event [] now

/-- Embeds the `message` creator from src/unnamed/part_000: the payload holds
the event itself together with its data and origin properties. -/
def message (event : JSValue) (string_timestamp : Bool) (pfx : Option String)
    (now : Nat) : BuiltAction :=
  buildAction (tmplStr pfx ++ "::" ++ WEBSOCKET_MESSAGE) string_timestamp
    (.objv [("event", event), ("message", event.getProp "data"),
            ("origin", event.getProp "origin")]) [] now

/-- Embeds the `error` creator from src/unnamed/part_000: the Error instance
(name and message strings) is the payload, and the meta carries its message,
name and the original action. -/
def error (originalAction : JSValue) (errName errMsg : String)
    (string_timestamp : Bool) (pfx : Option String) (now : Nat) : BuiltAction :=
  buildAction (tmplStr pfx ++ "::" ++ WEBSOCKET_ERROR) string_timestamp
    (.errv errName errMsg)
    [("message", .strv errMsg), ("name", .strv errName),
     ("originalAction", originalAction)] now

end ActionsV0

namespace ActionsV2

/-- Embeds `buildAction` from src/unnamed/part_002: identical logic to the
part_000 version up to local identifier naming (stringTimestamp, let). -/
def buildAction (actionType : String) (stringTimestamp : Bool) (payload : JSValue)
    (meta : List (String × JSValue)) (now : Nat) : BuiltAction :=
  { type := actionType
    timestamp := if stringTimestamp then .strv (dateToJSON now) else .datev now
    metaExtra := meta
    error := payload.isError
    payload := if payload.truthy then some payload else none }

/-- Embeds the `connect` creator from src/unnamed/part_002. -/
def connect (url : String) (stringTimestamp : Bool) (args : ConnectRestArgs)
    (now : Nat) : BuiltAction :=
  let protocols : Option (List String) :=
    match args with
    | .noArgs => none
    | .withPfx _ => none
    | .withProtocols ps => some ps
    | .withProtocolsAndPfx ps _ => some ps
  let pfx : Option String :=
    match args with
    | .noArgs => none
    | .withPfx p => some p
    | .withProtocols _ => none
    | .withProtocolsAndPfx _ p => some p
  buildAction (jsOrStr pfx DEFAULT_PFX ++ "::" ++ WEBSOCKET_CONNECT) stringTimestamp
    (.objv [("url", .strv url), ("protocols", protocolsToJS protocols)]) [] now

/-- Embeds the `disconnect` creator from src/unnamed/part_002. -/
def disconnect (stringTimestamp : Bool) (pfx : Option String) (now : Nat) : BuiltAction :=
  buildAction (jsOrStr pfx DEFAULT_PFX ++ "::" ++ WEBSOCKET_DISCONNECT)
    stringTimestamp .undefv [] now

/-- Embeds the `send` creator from src/unnamed/part_002. -/
def send (msg : JSValue) (stringTimestamp : Bool) (pfx : Option String)
    (now : Nat) : BuiltAction :=
  buildAction (jsOrStr pfx DEFAULT_PFX ++ "::" ++ WEBSOCKET_SEND)
    stringTimestamp msg [] now

/-- Embeds the `beginReconnect` creator from src/unnamed/part_002. The prefix
is interpolated without a default. -/
def beginReconnect (stringTimestamp : Bool) (pfx : Option String) (now : Nat) : BuiltAction :=
  buildAction (tmplStr pfx ++ "::" ++ WEBSOCKET_BEGIN_RECONNECT)
    stringTimestamp .undefv [] now

/-- Embeds the `reconnectAttempt` creator from src/unnamed/part_002. -/
def reconnectAttempt (count : Int) (stringTimestamp : Bool) (pfx : Option String)
    (now : Nat) : BuiltAction :=
  buildAction (tmplStr pfx ++ "::" ++ WEBSOCKET_RECONNECT_ATTEMPT)
    stringTimestamp (.objv [("count", .numv count)]) [] now

/-- Embeds the `reconnected` creator from src/unnamed/part_002. -/
def reconnected (stringTimestamp : Bool) (pfx : Option String) (now : Nat) : BuiltAction :=
  buildAction (tmplStr pfx ++ "::" ++ WEBSOCKET_RECONNECTED)
    stringTimestamp .undefv [] now

/-- Embeds the `open` creator from src/unnamed/part_002 (named openAction here
because open is a reserved word in Lean). -/
def openAction (event : JSValue) (stringTimestamp : Bool) (pfx : Option String)
    (now : Nat) : BuiltAction :=
  buildAction (tmplStr pfx ++ "::" ++ WEBSOCKET_OPEN) stringTimestamp event [] now

/-- Embeds the `broken` creator from src/unnamed/part_002. -/
def broken (stringTimestamp : Bool) (pfx : Option String) (now : Nat) : BuiltAction :=
  buildAction (tmplStr pfx ++ "::" ++ WEBSOCKET_BROKEN) stringTimestamp .undefv [] now

/-- Embeds the `closed` creator from src/unnamed/part_002. -/
def closed (event : JSValue) (stringTimestamp : Bool) (pfx : Option String)
    (now : Nat) : BuiltAction :=
  buildAction (tmplStr pfx ++ "::" ++ WEBSOCKET_CLOSED) stringTimestamp event [] now

/-- Embeds the `message` creator from src/unnamed/part_002. -/
def message (event : JSValue) (stringTimestamp : Bool) (pfx : Option String)
    (now : Nat) : BuiltAction :=
  buildAction (tmplStr pfx ++ "::" ++ WEBSOCKET_MESSAGE) stringTimestamp
    (.objv [("event", event), ("message", event.getProp "data"),
            ("origin", event.getProp "origin")]) [] now

/-- Embeds the `error` creator from src/unnamed/part_002. -/
def error (originalAction : JSValue) (errName errMsg : String)
    (stringTimestamp : Bool) (pfx : Option String) (now : Nat) : BuiltAction :=
  buildAction (tmplStr pfx ++ "::" ++ WEBSOCKET_ERROR) stringTimestamp
    (.errv errName errMsg)
    [("message", .strv errMsg), ("name", .strv errName),
     ("originalAction", originalAction)] now

end ActionsV2

/-- The notifications the connection manager dispatches (the action creators
it invokes), abstracted to their identity and data-bearing arguments. -/
inductive Notif where
  | beginReconnectN : Notif
  | reconnectAttemptN (count : Nat) : Notif
  | reconnectedN : Notif
  | openN : Notif
  | brokenN : Notif
  | closedN (reason : String) : Notif
  | messageN (data : String) : Notif
  | errorN (msg : String) : Notif
  | reconnectAbandonedN : Notif
deriving DecidableEq

/-- Everything observable the manager does: dispatch a notification, invoke
the raw-socket hook, transmit data on the socket, call the native close on
the socket, or log to the console. -/
inductive Out where
  | notif (n : Notif) : Out
  | hookCall : Out
  | wsSend (data : String) : Out
  | wsClose (code : Nat) (reason : String) : Out
  | logMsg (s : String) : Out
deriving DecidableEq

/-- Modelled from the spec: the state component of the RetryScheduler
(section 3), standing in for the external retry library the manager drives. -/
inductive RetrierStatus where
  | idle : RetrierStatus
  | attempting : RetrierStatus
  | stopped : RetrierStatus
  | abandoned : RetrierStatus
deriving DecidableEq

/-- Modelled from the spec: the RetryScheduler (sections 3 and 4.1), standing
in for the external retry library. `attemptCount` counts attempts in the
current cycle; `forever` and `maxAttempts` are the retry-budget policy;
`scheduled` records that retry has scheduled the connect callback to fire
again after the backoff delay; `lastError` records the reason passed to the
most recent retry call. -/
structure RetrierState where
  attemptCount : Nat
  status : RetrierStatus
  forever : Bool
  maxAttempts : Nat
  scheduled : Bool
  lastError : Option String
deriving DecidableEq

/-- Modelled from the spec (4.1): `reset()` clears attempt count and state
back to idle and cancels any pending scheduled retry. -/
def RetrierState.reset (r : RetrierState) : RetrierState :=
  { r with attemptCount := 0, status := .idle, scheduled := false }

/-- Modelled from the spec (4.1): `attempt(connectFn, ...)` transitions to
attempting and increments the attempt count to 1; the connect callback is
invoked immediately by the caller in this embedding. -/
def RetrierState.attempt (r : RetrierState) : RetrierState :=
  { r with attemptCount := 1, status := .attempting, scheduled := false }

/-- Modelled from the spec (4.1): `stop()` marks the cycle as successfully
concluded and cancels any pending timer; subsequent retry calls are no-ops
until reset. -/
def RetrierState.stop (r : RetrierState) : RetrierState :=
  { r with status := .stopped, scheduled := false }

/-- Modelled from the spec (4.1): `retry(reason)` returns true and schedules
another attempt (incrementing the attempt count) while the budget allows —
always, under `forever` — and false once the budget is exhausted or after
`stop()`. The reason is recorded. -/
def RetrierState.retry (r : RetrierState) (msg : String) : Bool × RetrierState :=
  if r.status = .stopped ∨ r.status = .abandoned then
    (false, { r with lastError := some msg })
  else if r.forever || r.attemptCount < r.maxAttempts then
    (true, { r with
             attemptCount := r.attemptCount + 1
             status := .attempting
             scheduled := true
             lastError := some msg })
  else
    (false, { r with status := .abandoned, scheduled := false, lastError := some msg })

/-- Modelled from the spec (4.1): `attempts()`, the current attempt count. -/
def RetrierState.attempts (r : RetrierState) : Nat := r.attemptCount

/-- The connect payload: target URL and optional sub-protocol list, as
destructured by reliablyConnect. -/
structure ConnectPayload where
  url : String
  protocols : Option (List String)
deriving DecidableEq

/-- The ReduxWebSocketOptions record: event-name prefix, reconnect interval,
the reconnectOnClose flag (present in the interface, never read by this
source), the optional raw-socket hook (modelled by its presence) and the
optional serializer. -/
structure Options where
  pfx : String
  reconnectInterval : Nat
  reconnectOnClose : Bool
  onOpenHook : Bool
  serializer : Option (JSValue → String)

/-- The mutable instance state of the ReduxWebSocket class. `websocket`
holds the payload the live socket was built from (none when no socket);
`reconnectCount` is declared by the class but never used; `storedPayload`
models the connect callback closure the retrier holds after `attempt`;
`everConnected` is a ghost flag recording whether a connect command was ever
received, used to state lifetime properties. -/
structure ManagerState where
  websocket : Option ConnectPayload
  reconnectCount : Nat
  hasOpened : Bool
  retrier : RetrierState
  storedPayload : Option ConnectPayload
  everConnected : Bool

/-- The errors the command handlers throw synchronously. -/
inductive WsErr where
  | notInitialized : WsErr
  | serializerMissing : WsErr
deriving DecidableEq

/-- Embeds the private `close(code?, reason?)` method: a no-op without a
socket; otherwise stops the retrier, issues the native close with the
defaulted code and reason, clears the socket and clears hasOpened. -/
def ManagerState.close (s : ManagerState) (code : Option Nat) (reason : Option String) :
    ManagerState × List Out :=
  match s.websocket with
  | some _ =>
    ({ s with retrier := s.retrier.stop, websocket := none, hasOpened := false },
     [.wsClose (jsOrNat code 1000)
        (jsOrStr reason "WebSocket connection closed by redux-websocket.")])
  | none => (s, [])

/-- Embeds `reliablyConnect`: computes `retries = attempts() - 1`; when
retries is nonzero dispatches beginReconnect (first retry only) before
reconnectAttempt with the retry count; then constructs the new socket from
the payload and registers the four event listeners (implicit here: socket
events are deliverable while `websocket` is some). -/
def reliablyConnect (s : ManagerState) (payload : ConnectPayload) :
    ManagerState × List Out :=
  let retries := s.retrier.attempts - 1
  let outs :=
    if retries ≠ 0 then
      (if retries = 1 then [Out.notif .beginReconnectN] else [])
        ++ [Out.notif (.reconnectAttemptN retries)]
    else []
  ({ s with websocket := some payload }, outs)

/-- Embeds the `connect` command handler: logs, closes any existing socket,
resets the retrier, then starts an attempt whose callback (reliablyConnect
with this payload) runs immediately and is retained for retries. -/
def ManagerState.connectCmd (s : ManagerState) (payload : ConnectPayload) :
    ManagerState × List Out :=
  let r1 := s.close none none
  let s2 := { r1.1 with retrier := r1.1.retrier.reset }
  let s3 := { s2 with retrier := s2.retrier.attempt, storedPayload := some payload,
                      everConnected := true }
  let r2 := reliablyConnect s3 payload
  (r2.1, Out.logMsg "Top of connect" :: (r1.2 ++ r2.2))

/-- Embeds `onTimeout`, the attempt-timeout callback: logs, and when a socket
exists calls the native close on it directly (code 1000, client-side timeout)
without touching any instance field. -/
def ManagerState.onTimeout (s : ManagerState) : ManagerState × List Out :=
  match s.websocket with
  | some _ => (s, [.logMsg "Websocket connection timed out",
                   .wsClose 1000 "client-side timeout"])
  | none => (s, [.logMsg "Websocket connection timed out"])

/-- Embeds `attemptReconnection(reason)`: calls retry with the wrapped reason
and dispatches broken when it returns true, reconnectAbandoned when false. -/
def ManagerState.attemptReconnection (s : ManagerState) (reason : String) :
    ManagerState × List Out :=
  match s.retrier.retry ("Websocket closed: " ++ reason) with
  | (true, r2) => ({ s with retrier := r2 }, [.notif .brokenN])
  | (false, r2) => ({ s with retrier := r2 }, [.notif .reconnectAbandonedN])

/-- Embeds the close listener registered by reliablyConnect: handleClose
(dispatching the closed notification) followed by attemptReconnection with
the event reason. -/
def ManagerState.onSocketClose (s : ManagerState) (reason : String) :
    ManagerState × List Out :=
  let r := s.attemptReconnection reason
  (r.1, Out.notif (.closedN reason) :: r.2)

/-- Embeds `handleOpen`: stops and resets the retrier, dispatches reconnected
when hasOpened was already true, invokes the raw-socket hook when configured
and a socket exists, dispatches open, and records hasOpened. -/
def ManagerState.handleOpen (s : ManagerState) (onOpenHook : Bool) :
    ManagerState × List Out :=
  let r := s.retrier.stop.reset
  let o1 := if s.hasOpened then [Out.notif .reconnectedN] else []
  let o2 := if onOpenHook && s.websocket.isSome then [Out.hookCall] else []
  ({ s with retrier := r, hasOpened := true }, o1 ++ (o2 ++ [Out.notif .openN]))

/-- Embeds the `disconnect` command handler: closes when a socket exists,
throws the not-initialized error otherwise. -/
def ManagerState.disconnectCmd (s : ManagerState) : Except WsErr (ManagerState × List Out) :=
  match s.websocket with
  | some _ => .ok (s.close none none)
  | none => .error .notInitialized

/-- Embeds the `send` command handler: throws the not-initialized error
without a socket, the serializer-missing error without a serializer, and
otherwise transmits exactly the serialized payload. -/
def ManagerState.sendCmd (s : ManagerState) (opts : Options) (payload : JSValue) :
    Except WsErr (ManagerState × List Out) :=
  match s.websocket with
  | some _ =>
    match opts.serializer with
    | some f => .ok (s, [.wsSend (f payload)])
    | none => .error .serializerMissing
  | none => .error .notInitialized

/-- The scheduled retry firing after its backoff delay: runs the retained
connect callback (reliablyConnect with the stored payload) when one is
scheduled and not cancelled; a no-op otherwise. -/
def ManagerState.retryFire (s : ManagerState) : ManagerState × List Out :=
  if s.retrier.scheduled then
    match s.storedPayload with
    | some p => reliablyConnect { s with retrier := { s.retrier with scheduled := false } } p
    | none => (s, [])
  else (s, [])

/-- The external events driving the manager: the three commands, the four
native socket events (deliverable while a socket is live), the attempt
timeout firing, and a scheduled retry firing. -/
inductive Ev where
  | connectE (p : ConnectPayload) : Ev
  | disconnectE : Ev
  | sendE (payload : JSValue) : Ev
  | socketCloseE (reason : String) : Ev
  | socketErrorE : Ev
  | socketOpenE : Ev
  | socketMessageE (data : String) : Ev
  | attemptTimeoutE : Ev
  | retryFireE : Ev

/-- One step of the manager: dispatches the event to the embedded handler.
Thrown errors leave the state unchanged and are reported in the third
component; socket events are no-ops when no socket is live. -/
def step (opts : Options) (s : ManagerState) : Ev → ManagerState × List Out × Option WsErr
  | .connectE p =>
    let r := s.connectCmd p
    (r.1, r.2, none)
  | .disconnectE =>
    match s.disconnectCmd with
    | .ok r => (r.1, r.2, none)
    | .error e => (s, [], some e)
  | .sendE payload =>
    match s.sendCmd opts payload with
    | .ok r => (r.1, r.2, none)
    | .error e => (s, [], some e)
  | .socketCloseE reason =>
    if s.websocket.isSome then
      let r := s.onSocketClose reason
      (r.1, r.2, none)
    else (s, [], none)
  | .socketErrorE =>
    if s.websocket.isSome then
      (s, [.notif (.errorN "`redux-websocket` error")], none)
    else (s, [], none)
  | .socketOpenE =>
    if s.websocket.isSome then
      let r := s.handleOpen opts.onOpenHook
      (r.1, r.2, none)
    else (s, [], none)
  | .socketMessageE data =>
    if s.websocket.isSome then
      (s, [.notif (.messageN data)], none)
    else (s, [], none)
  | .attemptTimeoutE =>
    let r := s.onTimeout
    (r.1, r.2, none)
  | .retryFireE =>
    let r := s.retryFire
    (r.1, r.2, none)

/-- Runs a sequence of events, accumulating the outputs in order. -/
def run (opts : Options) (s : ManagerState) : List Ev → ManagerState × List Out
  | [] => (s, [])
  | e :: es =>
    let r := step opts s e
    let rest := run opts r.1 es
    (rest.1, r.2.1 ++ rest.2)

/-- The retrier as built by the constructor: `forever: true` with min and max
timeout 1000 ms (the delays themselves are not tracked by this embedding). -/
def initialRetrier : RetrierState :=
  { attemptCount := 0, status := .idle, forever := true, maxAttempts := 0,
    scheduled := false, lastError := none }

/-- The instance state right after the constructor ran. -/
def initialState : ManagerState :=
  { websocket := none, reconnectCount := 0, hasOpened := false,
    retrier := initialRetrier, storedPayload := none, everConnected := false }

/-- The notifications among a list of outputs, in order. -/
def notifsOf (outs : List Out) : List Notif :=
  outs.filterMap fun o =>
    match o with
    | .notif n => some n
    | _ => none

/-- Whether the first list occurs as a (not necessarily contiguous)
subsequence of the second, in order. -/
def isSubseqOf : List Notif → List Notif → Bool
  | [], _ => true
  | _ :: _, [] => false
  | x :: xs, y :: ys => if x = y then isSubseqOf xs ys else isSubseqOf (x :: xs) ys

/-- A concrete connect payload used by scenario evaluations. -/
def cp0 : ConnectPayload := { url := "wss://x", protocols := none }

/-- A concrete options record used by scenario evaluations. -/
def opts0 : Options :=
  { pfx := "REDUX_WEBSOCKET", reconnectInterval := 1000, reconnectOnClose := true,
    onOpenHook := false, serializer := none }

/-- A concrete options record with the raw-socket hook configured. -/
def optsHook : Options := { opts0 with onOpenHook := true }

/-- A concrete options record with a serializer configured. -/
def optsSer : Options := { opts0 with serializer := some (fun _ => "wire") }

/-- A concrete manager state holding a live socket that has opened before. -/
def sOpen : ManagerState := { initialState with websocket := some cp0, hasOpened := true }

/-- A concrete manager state whose retrier is on its first retry
(two attempts made). -/
def sRetry1 : ManagerState :=
  { initialState with
    websocket := some cp0
    retrier := { initialRetrier with attemptCount := 2, status := .attempting } }

/-- A concrete manager state whose retrier is attempting (initial attempt). -/
def sAttempting : ManagerState :=
  { initialState with
    websocket := some cp0
    retrier := { initialRetrier with attemptCount := 1, status := .attempting } }

/-- A concrete manager state whose retrier has been stopped. -/
def sStopped : ManagerState :=
  { initialState with
    websocket := some cp0
    retrier := { initialRetrier with status := .stopped } }

/-- The reason string attemptReconnection hands to the retrier. -/
theorem RetrierState.retry_lastError (r : RetrierState) (msg : String) :
    ((r.retry msg).2).lastError = some msg := by
  unfold RetrierState.retry
  split
  · rfl
  · split <;> rfl

/-- Claim C10: every exported action creator of src/unnamed/part_000 and its
counterpart in src/unnamed/part_002 produce identical actions on all inputs
(with the same build-time timestamp): the two modules are extensionally
equal. -/
theorem c10_action_modules_extensionally_equal :
    (∀ url st args now, ActionsV0.connect url st args now = ActionsV2.connect url st args now)
    ∧ (∀ st p now, ActionsV0.disconnect st p now = ActionsV2.disconnect st p now)
    ∧ (∀ msg st p now, ActionsV0.send msg st p now = ActionsV2.send msg st p now)
    ∧ (∀ st p now, ActionsV0.beginReconnect st p now = ActionsV2.beginReconnect st p now)
    ∧ (∀ c st p now, ActionsV0.reconnectAttempt c st p now = ActionsV2.reconnectAttempt c st p now)
    ∧ (∀ st p now, ActionsV0.reconnected st p now = ActionsV2.reconnected st p now)
    ∧ (∀ ev st p now, ActionsV0.openAction ev st p now = ActionsV2.openAction ev st p now)
    ∧ (∀ st p now, ActionsV0.broken st p now = ActionsV2.broken st p now)
    ∧ (∀ ev st p now, ActionsV0.closed ev st p now = ActionsV2.closed ev st p now)
    ∧ (∀ ev st p now, ActionsV0.message ev st p now = ActionsV2.message ev st p now)
    ∧ (∀ oa en em st p now, ActionsV0.error oa en em st p now = ActionsV2.error oa en em st p now) :=
  ⟨fun _ _ _ _ => rfl, fun _ _ _ => rfl, fun _ _ _ _ => rfl, fun _ _ _ => rfl,
   fun _ _ _ _ => rfl, fun _ _ _ => rfl, fun _ _ _ _ => rfl, fun _ _ _ => rfl,
   fun _ _ _ _ => rfl, fun _ _ _ _ => rfl, fun _ _ _ _ _ _ => rfl⟩

/-- Claim C9, counterexample: the library-dispatched beginReconnect creator,
called with no prefix, does not produce the default-prefixed type string —
the prefix interpolates as the text undefined instead of DEFAULT_PREFIX. -/
theorem c9_counterexample :
    (ActionsV2.beginReconnect false none 0).type
      ≠ DEFAULT_PFX ++ "::" ++ WEBSOCKET_BEGIN_RECONNECT := by
  decide

/-- Claim C9 as amended: the user-dispatched creators (connect, disconnect,
send) compose the type as DEFAULT_PREFIX::EVENT when no prefix (or an empty
one) is supplied; the library-dispatched creators interpolate the supplied
prefix verbatim with no default, so an omitted prefix yields the text
undefined as the prefix. -/
theorem c9_default_prefix_amended :
    (∀ url st now, (ActionsV2.connect url st .noArgs now).type
        = DEFAULT_PFX ++ "::" ++ WEBSOCKET_CONNECT)
    ∧ (∀ url st ps now, (ActionsV2.connect url st (.withProtocols ps) now).type
        = DEFAULT_PFX ++ "::" ++ WEBSOCKET_CONNECT)
    ∧ (∀ st now, (ActionsV2.disconnect st none now).type
        = DEFAULT_PFX ++ "::" ++ WEBSOCKET_DISCONNECT)
    ∧ (∀ msg st now, (ActionsV2.send msg st none now).type
        = DEFAULT_PFX ++ "::" ++ WEBSOCKET_SEND)
    ∧ (∀ st p now, (ActionsV2.beginReconnect st p now).type
        = tmplStr p ++ "::" ++ WEBSOCKET_BEGIN_RECONNECT)
    ∧ (∀ c st p now, (ActionsV2.reconnectAttempt c st p now).type
        = tmplStr p ++ "::" ++ WEBSOCKET_RECONNECT_ATTEMPT)
    ∧ (∀ st p now, (ActionsV2.reconnected st p now).type
        = tmplStr p ++ "::" ++ WEBSOCKET_RECONNECTED)
    ∧ (∀ ev st p now, (ActionsV2.openAction ev st p now).type
        = tmplStr p ++ "::" ++ WEBSOCKET_OPEN)
    ∧ (∀ st p now, (ActionsV2.broken st p now).type
        = tmplStr p ++ "::" ++ WEBSOCKET_BROKEN)
    ∧ (∀ ev st p now, (ActionsV2.closed ev st p now).type
        = tmplStr p ++ "::" ++ WEBSOCKET_CLOSED)
    ∧ (∀ ev st p now, (ActionsV2.message ev st p now).type
        = tmplStr p ++ "::" ++ WEBSOCKET_MESSAGE)
    ∧ (∀ oa en em st p now, (ActionsV2.error oa en em st p now).type
        = tmplStr p ++ "::" ++ WEBSOCKET_ERROR)
    ∧ tmplStr none = "undefined" :=
  ⟨fun _ _ _ => rfl, fun _ _ _ _ => rfl, fun _ _ => rfl, fun _ _ _ => rfl,
   fun _ _ _ => rfl, fun _ _ _ _ => rfl, fun _ _ _ => rfl, fun _ _ _ _ => rfl,
   fun _ _ _ => rfl, fun _ _ _ _ => rfl, fun _ _ _ _ => rfl,
   fun _ _ _ _ _ _ => rfl, rfl⟩

/-- Claim C8, counterexample: in the scenario connect then native close with
reason refused then the scheduled retry firing, the notifications BROKEN,
RECONNECT_ATTEMPT(1), BEGIN_RECONNECT do not occur in that order — the code
emits BEGIN_RECONNECT before RECONNECT_ATTEMPT. -/
theorem c8_counterexample :
    isSubseqOf [.brokenN, .reconnectAttemptN 1, .beginReconnectN]
      (notifsOf (run opts0 initialState
        [.connectE cp0, .socketCloseE "refused", .retryFireE]).2) = false := by
  decide

/-- Claim C8 as amended: in the scenario connect("wss://x") then native close
with reason refused then the retry firing after the backoff delay, the
notification sequence is exactly CLOSED, BROKEN, then BEGIN_RECONNECT
followed by RECONNECT_ATTEMPT with count 1, in that order. -/
theorem c8_scenario_amended :
    notifsOf (run opts0 initialState
        [.connectE cp0, .socketCloseE "refused", .retryFireE]).2
      = [.closedN "refused", .brokenN, .beginReconnectN, .reconnectAttemptN 1] := by
  decide

/-- Claim C7, counterexample: after connect then disconnect, a second
disconnect throws the invalid-state error although the manager did receive a
connect command in its lifetime — the error is keyed to the socket currently
being none, not to never having connected. -/
theorem c7_counterexample :
    (run opts0 initialState [.connectE cp0, .disconnectE]).1.everConnected = true
    ∧ (step opts0 (run opts0 initialState [.connectE cp0, .disconnectE]).1
        .disconnectE).2.2 = some .notInitialized :=
  ⟨rfl, rfl⟩

/-- Claim C7 as amended: the disconnect command fails with the invalid-state
error if and only if no socket currently exists; otherwise it performs the
deliberate close with code 1000 and the default reason, clears the socket,
clears hasOpened, stops the retrier, and does not invoke attemptReconnection
(it emits no notification at all). -/
theorem c7_disconnect_amended (s : ManagerState) :
    (s.websocket = none → s.disconnectCmd = .error .notInitialized)
    ∧ (∀ w, s.websocket = some w →
        s.disconnectCmd = .ok
          ({ s with retrier := s.retrier.stop, websocket := none, hasOpened := false },
           [Out.wsClose 1000 "WebSocket connection closed by redux-websocket."])) := by
  constructor
  · intro h
    simp [ManagerState.disconnectCmd, h]
  · intro w hw
    simp [ManagerState.disconnectCmd, ManagerState.close, hw, jsOrNat, jsOrStr]

/-- Witness for the amended claim C7 at concrete states: the fresh manager
throws, and a manager holding a live socket closes it deliberately. -/
theorem c7_disconnect_amended_witness :
    initialState.disconnectCmd = .error .notInitialized
    ∧ sOpen.disconnectCmd = .ok
        ({ sOpen with retrier := sOpen.retrier.stop, websocket := none, hasOpened := false },
         [Out.wsClose 1000 "WebSocket connection closed by redux-websocket."]) :=
  ⟨(c7_disconnect_amended initialState).1 rfl,
   (c7_disconnect_amended sOpen).2 cp0 rfl⟩

/-- Claim C1: a connect attempt (one invocation of reliablyConnect) emits the
BEGIN_RECONNECT notification exactly when this is the first retry
(retries = attempts − 1 = 1), and then before that retry's RECONNECT_ATTEMPT;
a RECONNECT_ATTEMPT carrying the retry count is emitted on every retry
(retries > 0) and never on the initial attempt (retries = 0). -/
theorem c1_begin_reconnect_first_retry_only (s : ManagerState) (p : ConnectPayload) :
    (s.retrier.attempts - 1 = 0 → (reliablyConnect s p).2 = [])
    ∧ (s.retrier.attempts - 1 = 1 →
        (reliablyConnect s p).2
          = [Out.notif .beginReconnectN, Out.notif (.reconnectAttemptN 1)])
    ∧ (2 ≤ s.retrier.attempts - 1 →
        (reliablyConnect s p).2 = [Out.notif (.reconnectAttemptN (s.retrier.attempts - 1))])
    ∧ (Out.notif .beginReconnectN ∈ (reliablyConnect s p).2 ↔ s.retrier.attempts - 1 = 1)
    ∧ (∀ c, Out.notif (.reconnectAttemptN c) ∈ (reliablyConnect s p).2 ↔
        (0 < s.retrier.attempts - 1 ∧ c = s.retrier.attempts - 1)) := by
  obtain ⟨r, hr⟩ : ∃ r, s.retrier.attempts - 1 = r := ⟨_, rfl⟩
  simp only [reliablyConnect, hr]
  rcases r with _ | _ | n
  · simp
  · simp
  · refine ⟨by omega, by omega, fun _ => by simp, by simp, fun c => by simp⟩

/-- Witness for claim C1 at a concrete first-retry state: with two attempts
made, the connect attempt emits BEGIN_RECONNECT followed by
RECONNECT_ATTEMPT with count 1. -/
theorem c1_begin_reconnect_first_retry_only_witness :
    (reliablyConnect sRetry1 cp0).2
      = [Out.notif .beginReconnectN, Out.notif (.reconnectAttemptN 1)] :=
  (c1_begin_reconnect_first_retry_only sRetry1 cp0).2.1 rfl

/-- Claim C2: on a native open event the manager stops and resets the
retrier, emits RECONNECTED exactly when hasOpened was already true, then
invokes the raw-socket hook when configured, then always emits OPEN, and
records hasOpened — with the emissions in that order. -/
theorem c2_handle_open_order (opts : Options) (s : ManagerState)
    (h : s.websocket.isSome = true) :
    step opts s .socketOpenE =
      ({ s with retrier := s.retrier.stop.reset, hasOpened := true },
       (if s.hasOpened then [Out.notif .reconnectedN] else [])
         ++ ((if opts.onOpenHook then [Out.hookCall] else []) ++ [Out.notif .openN]),
       none) := by
  simp [step, h, ManagerState.handleOpen]

/-- Witness for claim C2 at a concrete previously-opened state with the hook
configured: the open event emits RECONNECTED, the hook call, then OPEN. -/
theorem c2_handle_open_order_witness :
    step optsHook sOpen .socketOpenE =
      ({ sOpen with retrier := sOpen.retrier.stop.reset, hasOpened := true },
       (if sOpen.hasOpened then [Out.notif .reconnectedN] else [])
         ++ ((if optsHook.onOpenHook then [Out.hookCall] else []) ++ [Out.notif .openN]),
       none) :=
  c2_handle_open_order optsHook sOpen rfl

/-- Claim C4: attemptReconnection calls retry with the wrapped reason (the
resulting retrier state is exactly the retry result and records that
reason), and emits exactly a BROKEN notification when retry returns true and
exactly a RECONNECT_ABANDONED notification when it returns false. -/
theorem c4_attempt_reconnection_broken_or_abandoned (s : ManagerState) (reason : String) :
    ((s.retrier.retry ("Websocket closed: " ++ reason)).1 = true →
      (s.attemptReconnection reason).2 = [Out.notif .brokenN])
    ∧ ((s.retrier.retry ("Websocket closed: " ++ reason)).1 = false →
      (s.attemptReconnection reason).2 = [Out.notif .reconnectAbandonedN])
    ∧ (s.attemptReconnection reason).1.retrier
        = (s.retrier.retry ("Websocket closed: " ++ reason)).2
    ∧ (s.attemptReconnection reason).1.retrier.lastError
        = some ("Websocket closed: " ++ reason) := by
  have hlast := RetrierState.retry_lastError s.retrier ("Websocket closed: " ++ reason)
  rcases hres : s.retrier.retry ("Websocket closed: " ++ reason) with ⟨b, r2⟩
  rw [hres] at hlast
  unfold ManagerState.attemptReconnection
  rw [hres]
  rcases b with _ | _
  · refine ⟨fun h => ?_, fun _ => rfl, rfl, hlast⟩
    simp at h
  · refine ⟨fun _ => rfl, fun h => ?_, rfl, hlast⟩
    simp at h

/-- Witness for claim C4 at concrete states: an attempting forever-retrier
yields BROKEN, a stopped retrier yields RECONNECT_ABANDONED. -/
theorem c4_attempt_reconnection_broken_or_abandoned_witness :
    (sAttempting.attemptReconnection "refused").2 = [Out.notif .brokenN]
    ∧ (sStopped.attemptReconnection "refused").2 = [Out.notif .reconnectAbandonedN] :=
  ⟨(c4_attempt_reconnection_broken_or_abandoned sAttempting "refused").1 rfl,
   (c4_attempt_reconnection_broken_or_abandoned sStopped "refused").2.1 rfl⟩

/-- Claim C6: the send command throws the invalid-state error without a
socket, throws the configuration error with a socket but no serializer, and
otherwise transmits exactly the serializer output; in all cases the manager
state is left unchanged (so nothing is queued or buffered). -/
theorem c6_send_errors_and_transmission (opts : Options) (s : ManagerState)
    (payload : JSValue) :
    (s.websocket = none → s.sendCmd opts payload = .error .notInitialized)
    ∧ (∀ w, s.websocket = some w → opts.serializer = none →
        s.sendCmd opts payload = .error .serializerMissing)
    ∧ (∀ w f, s.websocket = some w → opts.serializer = some f →
        s.sendCmd opts payload = .ok (s, [Out.wsSend (f payload)]))
    ∧ (step opts s (.sendE payload)).1 = s := by
  refine ⟨fun h => ?_, fun w hw hf => ?_, fun w f hw hf => ?_, ?_⟩
  · simp [ManagerState.sendCmd, h]
  · simp [ManagerState.sendCmd, hw, hf]
  · simp [ManagerState.sendCmd, hw, hf]
  · rcases hw : s.websocket with _ | w
    · simp [step, ManagerState.sendCmd, hw]
    · rcases hf : opts.serializer with _ | f
      · simp [step, ManagerState.sendCmd, hw, hf]
      · simp [step, ManagerState.sendCmd, hw, hf]

/-- Witness for claim C6 at concrete states: a fresh manager rejects send, a
connected manager without serializer rejects send, and a connected manager
with a serializer transmits the serialized payload. -/
theorem c6_send_errors_and_transmission_witness :
    initialState.sendCmd opts0 .undefv = .error .notInitialized
    ∧ sOpen.sendCmd opts0 .undefv = .error .serializerMissing
    ∧ sOpen.sendCmd optsSer .undefv = .ok (sOpen, [Out.wsSend "wire"]) :=
  ⟨(c6_send_errors_and_transmission opts0 initialState .undefv).1 rfl,
   (c6_send_errors_and_transmission opts0 sOpen .undefv).2.1 cp0 rfl rfl,
   (c6_send_errors_and_transmission optsSer sOpen .undefv).2.2.1 cp0
     (fun _ => "wire") rfl rfl⟩

/-- The manager state right after a connect command on a fresh manager: the
socket is live, one attempt has been made, and the retrier is attempting
forever. -/
def postConnect (p : ConnectPayload) : ManagerState :=
  { websocket := some p, reconnectCount := 0, hasOpened := false,
    retrier := { attemptCount := 1, status := .attempting, forever := true,
                 maxAttempts := 0, scheduled := false, lastError := none },
    storedPayload := some p, everConnected := true }

/-- Driving any sequence of socket close events into a manager whose retrier
is attempting with the forever policy and whose socket is live: every close
adds exactly one attempt, the retrier stays attempting and forever, the
socket stays live, and no RECONNECT_ABANDONED notification is emitted. -/
theorem run_closes_forever_invariant (opts : Options) (rs : List String) :
    ∀ s : ManagerState, s.retrier.status = .attempting → s.retrier.forever = true →
      s.websocket.isSome = true →
      ((run opts s (rs.map .socketCloseE)).1.retrier.attemptCount
          = s.retrier.attemptCount + rs.length)
      ∧ (run opts s (rs.map .socketCloseE)).1.retrier.status = .attempting
      ∧ (run opts s (rs.map .socketCloseE)).1.retrier.forever = true
      ∧ (run opts s (rs.map .socketCloseE)).1.websocket.isSome = true
      ∧ Out.notif .reconnectAbandonedN ∉ (run opts s (rs.map .socketCloseE)).2 := by
  induction rs with
  | nil =>
    intro s h1 h2 h3
    exact ⟨rfl, h1, h2, h3, by simp [run]⟩
  | cons r rs ih =>
    intro s h1 h2 h3
    have hretry : s.retrier.retry ("Websocket closed: " ++ r)
        = (true, { s.retrier with
                   attemptCount := s.retrier.attemptCount + 1
                   status := .attempting
                   scheduled := true
                   lastError := some ("Websocket closed: " ++ r) }) := by
      unfold RetrierState.retry
      rw [h1, h2]
      simp [h2]
    have hstep : step opts s (.socketCloseE r)
        = ({ s with retrier := { s.retrier with
              attemptCount := s.retrier.attemptCount + 1
              status := .attempting
              scheduled := true
              lastError := some ("Websocket closed: " ++ r) } },
           [Out.notif (.closedN r), Out.notif .brokenN], none) := by
      simp [step, h3, ManagerState.onSocketClose, ManagerState.attemptReconnection, hretry]
    have hpre1 : (step opts s (.socketCloseE r)).1.retrier.status = .attempting := by
      rw [hstep]
    have hpre2 : (step opts s (.socketCloseE r)).1.retrier.forever = true := by
      rw [hstep]
      exact h2
    have hpre3 : (step opts s (.socketCloseE r)).1.websocket.isSome = true := by
      rw [hstep]
      exact h3
    have hcnt : (step opts s (.socketCloseE r)).1.retrier.attemptCount
        = s.retrier.attemptCount + 1 := by
      rw [hstep]
    have houts : (step opts s (.socketCloseE r)).2.1
        = [Out.notif (.closedN r), Out.notif .brokenN] := by
      rw [hstep]
    have ihres := ih (step opts s (.socketCloseE r)).1 hpre1 hpre2 hpre3
    simp only [List.map_cons, run]
    refine ⟨?_, ihres.2.1, ihres.2.2.1, ihres.2.2.2.1, ?_⟩
    · rw [ihres.1, hcnt]
      simp only [List.length_cons]
      omega
    · rw [houts]
      intro hmem
      simp only [List.cons_append, List.nil_append, List.mem_cons] at hmem
      rcases hmem with h | h | h
      · exact absurd h (by simp)
      · exact absurd h (by simp)
      · exact ihres.2.2.2.2 h

/-- Claim C3: for a connect command followed by any number of consecutive
socket close events, with the retrier configured forever (as the constructor
configures it), the retrier attempt count after k closes is exactly k + 1
(so it is strictly increasing across the closes), and no RECONNECT_ABANDONED
notification is ever emitted. -/
theorem c3_forever_no_abandonment (opts : Options) (p : ConnectPayload) (rs : List String) :
    (∀ k, k ≤ rs.length →
      (run opts initialState
          (Ev.connectE p :: (rs.take k).map Ev.socketCloseE)).1.retrier.attemptCount
        = k + 1)
    ∧ Out.notif .reconnectAbandonedN ∉
        (run opts initialState (Ev.connectE p :: rs.map Ev.socketCloseE)).2 := by
  have hconn : step opts initialState (.connectE p)
      = (postConnect p, [Out.logMsg "Top of connect"], none) := rfl
  constructor
  · intro k hk
    have hinv := run_closes_forever_invariant opts (rs.take k) (postConnect p) rfl rfl rfl
    simp only [run, hconn]
    rw [hinv.1]
    have hlen : (rs.take k).length = k := by
      simp [List.length_take, Nat.min_eq_left hk]
    rw [hlen]
    simp [postConnect]
    omega
  · have hinv := run_closes_forever_invariant opts rs (postConnect p) rfl rfl rfl
    simp only [run, hconn]
    intro hmem
    simp only [List.cons_append, List.nil_append, List.mem_cons] at hmem
    rcases hmem with h | h
    · exact absurd h (by simp)
    · exact hinv.2.2.2.2 h

/-- Witness for claim C3 at a concrete scenario: connect then one refused
close gives attempt count 2, and no RECONNECT_ABANDONED is emitted. -/
theorem c3_forever_no_abandonment_witness :
    (run opts0 initialState
        (Ev.connectE cp0 :: ((["refused"].take 1).map Ev.socketCloseE))).1.retrier.attemptCount
      = 2
    ∧ Out.notif .reconnectAbandonedN ∉
        (run opts0 initialState (Ev.connectE cp0 :: (["refused"].map Ev.socketCloseE))).2 :=
  ⟨(c3_forever_no_abandonment opts0 cp0 ["refused"]).1 1 (by decide),
   (c3_forever_no_abandonment opts0 cp0 ["refused"]).2⟩

/-- Claim C5: for every state and every operation, the hasOpened flag is set
to false only by a deliberate close — the disconnect command, or the
internal close a connect command performs, both only when a socket exists —
and a socket-initiated close event or the attempt-timeout path never changes
it. -/
theorem c5_has_opened_cleared_only_by_deliberate_close (opts : Options) (s : ManagerState) :
    (∀ e, s.hasOpened = true → (step opts s e).1.hasOpened = false →
      (e = .disconnectE ∧ s.websocket.isSome = true)
      ∨ ∃ p, e = .connectE p ∧ s.websocket.isSome = true)
    ∧ (∀ reason, (step opts s (.socketCloseE reason)).1.hasOpened = s.hasOpened)
    ∧ (step opts s .attemptTimeoutE).1.hasOpened = s.hasOpened := by
  have hclose : ∀ reason, (step opts s (.socketCloseE reason)).1.hasOpened = s.hasOpened := by
    intro reason
    rcases hw : s.websocket with _ | w
    · simp [step, hw]
    · rcases hres : s.retrier.retry ("Websocket closed: " ++ reason) with ⟨b, r2⟩
      rcases b with _ | _ <;>
        simp [step, hw, ManagerState.onSocketClose, ManagerState.attemptReconnection, hres]
  have htime : (step opts s .attemptTimeoutE).1.hasOpened = s.hasOpened := by
    rcases hw : s.websocket with _ | w <;> simp [step, ManagerState.onTimeout, hw]
  refine ⟨?_, hclose, htime⟩
  intro e h1 h2
  cases e with
  | connectE p =>
    rcases hw : s.websocket with _ | w
    · exfalso
      simp [step, ManagerState.connectCmd, ManagerState.close, hw, reliablyConnect] at h2
      rw [h1] at h2
      exact absurd h2 (by simp)
    · exact Or.inr ⟨p, rfl, by simp [hw]⟩
  | disconnectE =>
    rcases hw : s.websocket with _ | w
    · exfalso
      simp [step, ManagerState.disconnectCmd, hw] at h2
      rw [h1] at h2
      exact absurd h2 (by simp)
    · exact Or.inl ⟨rfl, by simp [hw]⟩
  | sendE payload =>
    exfalso
    have hunch : (step opts s (.sendE payload)).1 = s := by
      rcases hw : s.websocket with _ | w
      · simp [step, ManagerState.sendCmd, hw]
      · rcases hf : opts.serializer with _ | f <;>
          simp [step, ManagerState.sendCmd, hw, hf]
    rw [hunch, h1] at h2
    exact absurd h2 (by simp)
  | socketCloseE reason =>
    exfalso
    rw [hclose reason, h1] at h2
    exact absurd h2 (by simp)
  | socketErrorE =>
    exfalso
    have hunch : (step opts s .socketErrorE).1 = s := by
      rcases hw : s.websocket with _ | w <;> simp [step, hw]
    rw [hunch, h1] at h2
    exact absurd h2 (by simp)
  | socketOpenE =>
    exfalso
    rcases hw : s.websocket with _ | w
    · simp [step, hw] at h2
      rw [h1] at h2
      exact absurd h2 (by simp)
    · simp [step, hw, ManagerState.handleOpen] at h2
  | socketMessageE data =>
    exfalso
    have hunch : (step opts s (.socketMessageE data)).1 = s := by
      rcases hw : s.websocket with _ | w <;> simp [step, hw]
    rw [hunch, h1] at h2
    exact absurd h2 (by simp)
  | attemptTimeoutE =>
    exfalso
    rw [htime, h1] at h2
    exact absurd h2 (by simp)
  | retryFireE =>
    exfalso
    have hunch : (step opts s .retryFireE).1.hasOpened = s.hasOpened := by
      unfold step ManagerState.retryFire
      by_cases hs : s.retrier.scheduled
      · rcases hp : s.storedPayload with _ | q <;> simp [hs, hp, reliablyConnect]
      · simp [hs]
    rw [hunch, h1] at h2
    exact absurd h2 (by simp)

/-- Witness for claim C5 at a concrete state: on a previously-opened manager
holding a live socket, a disconnect that clears hasOpened is classified as
the deliberate-close case. -/
theorem c5_has_opened_cleared_only_by_deliberate_close_witness :
    (Ev.disconnectE = Ev.disconnectE ∧ sOpen.websocket.isSome = true)
    ∨ ∃ p, Ev.disconnectE = Ev.connectE p ∧ sOpen.websocket.isSome = true :=
  (c5_has_opened_cleared_only_by_deliberate_close opts0 sOpen).1 .disconnectE rfl rfl
